import Mathlib

/-!
Verification of the homework-status notification bot (homework.py, exceptions.py).

We shallowly embed the Python source: JSON values become an inductive `Json`
type, Python dicts become association lists, exceptions become an inductive
`Exc` carrying the exception class and its message string, and each fallible
Python function becomes a Lean function into `Except Exc _`.  The body of one
iteration of the polling loop in `main` becomes a pure transition function
`runCycle` over an explicit `LoopState`, with the network and the Telegram
send modelled as per-cycle oracles (`CycleEnv`).
-/

namespace HomeworkBot

/-- A decoded JSON value, as produced by `response.json()` in Python.
Python dicts are modelled as association lists (first binding wins, as in
`dict.get`); Python `None` is `Json.null`. -/
inductive Json where
  | null : Json
  | str : String → Json
  | int : Int → Json
  | list : List Json → Json
  | dict : List (String × Json) → Json

/-- Structural (Python `==`) equality test on JSON values, needed for list
membership tests. -/
def Json.beq : Json → Json → Bool
  | .null, .null => true
  | .str a, .str b => a == b
  | .int a, .int b => a == b
  | .list xs, .list ys => beqList xs ys
  | .dict xs, .dict ys => beqKvs xs ys
  | _, _ => false
where
  beqList : List Json → List Json → Bool
    | [], [] => true
    | x :: xs, y :: ys => Json.beq x y && beqList xs ys
    | _, _ => false
  beqKvs : List (String × Json) → List (String × Json) → Bool
    | [], [] => true
    | (k1, v1) :: xs, (k2, v2) :: ys =>
      k1 == k2 && Json.beq v1 v2 && beqKvs xs ys
    | _, _ => false

instance : BEq Json := ⟨Json.beq⟩

/-- Exceptions raised by the program, one constructor per Python exception
class reachable in the code (from exceptions.py plus the builtin classes the
code can raise), each carrying the message string the exception was
constructed with. -/
inductive Exc where
  | tokenNotFound : String → Exc
  | apiNotFound : String → Exc
  | homeworksNotFound : String → Exc
  | currentDateNotFound : String → Exc
  | statusNotFound : String → Exc
  | telegramError : String → Exc
  | emptyHomeworks : String → Exc
  | typeError : String → Exc
  | jsonDecodeError : String → Exc
  | attributeError : String → Exc
deriving DecidableEq

/-- The Python class name of an exception, distinguishing the spec-level
error kinds a caller can tell apart with `except` clauses. -/
def Exc.className : Exc → String
  | .tokenNotFound _ => "TokenNotFoundError"
  | .apiNotFound _ => "APINotFoundError"
  | .homeworksNotFound _ => "HomeworksNotFoundError"
  | .currentDateNotFound _ => "CurrentDateNotFoundError"
  | .statusNotFound _ => "StatusNotFoundError"
  | .telegramError _ => "TelegramError"
  | .emptyHomeworks _ => "EmptyHomeworksError"
  | .typeError _ => "TypeError"
  | .jsonDecodeError _ => "JSONDecodeError"
  | .attributeError _ => "AttributeError"

/-- `str(error)` for an exception constructed with a single message
argument: Python returns the message. -/
def Exc.text : Exc → String
  | .tokenNotFound m => m
  | .apiNotFound m => m
  | .homeworksNotFound m => m
  | .currentDateNotFound m => m
  | .statusNotFound m => m
  | .telegramError m => m
  | .emptyHomeworks m => m
  | .typeError m => m
  | .jsonDecodeError m => m
  | .attributeError m => m

/-- Whether the exception class is a subclass of `NotForSend`
(exceptions.py: `TelegramError` and `EmptyHomeworksError` derive from
`NotForSend`; every other class does not). -/
def Exc.isNotForSend : Exc → Bool
  | .telegramError _ => true
  | .emptyHomeworks _ => true
  | _ => false

/-- Modelled from the spec: constants.py is part of this repository but is
not under src/; homework.py imports these log/error message strings from it.
The spec does not give their exact text, and no claim depends on it, so they
are modelled as distinct descriptive strings. -/
def API_REQUEST_FAILURE : String := "API request failure"

/-- Modelled from the spec: see `API_REQUEST_FAILURE`. -/
def INVALID_RESPONSE_TYPE : String := "Invalid response type"

/-- Modelled from the spec: see `API_REQUEST_FAILURE`. -/
def MISSING_CURRENT_DATE_KEY : String := "Missing current_date key"

/-- Modelled from the spec: see `API_REQUEST_FAILURE`. -/
def MISSING_HOMEWORK_NAME : String := "Missing homework_name"

/-- Modelled from the spec: see `API_REQUEST_FAILURE`. -/
def MISSING_HOMEWORKS_KEY : String := "Missing homeworks key"

/-- Modelled from the spec: see `API_REQUEST_FAILURE`. -/
def MISSING_TOKENS : String := "Missing tokens"

/-- Modelled from the spec: see `API_REQUEST_FAILURE`. -/
def UNEXPECTED_STATUS : String := "Unexpected homework status"

/-- `HOMEWORK_VERDICTS` from homework.py: the fixed status catalog. -/
def HOMEWORK_VERDICTS : List (String × String) :=
  [("approved", "Работа проверена: ревьюеру всё понравилось. Ура!"),
   ("reviewing", "Работа взята на проверку ревьюером."),
   ("rejected", "Работа проверена: у ревьюера есть замечания.")]

/-- Lookup in a Python dict modelled as an association list: the first
binding for the key, if any (Python dicts have unique keys, so taking the
first binding is faithful). -/
def dlookup (k : String) : List (String × Json) → Option Json
  | [] => none
  | (k2, v) :: rest => if k2 = k then some v else dlookup k rest

/-- `type(j).__name__` in Python, used in the error messages of
`check_response`. -/
def Json.typeName : Json → String
  | .null => "NoneType"
  | .str _ => "str"
  | .int _ => "int"
  | .list _ => "list"
  | .dict _ => "dict"

/-- Python truthiness (`if not x`): `None`, empty string, zero, empty list
and empty dict are falsy. -/
def pyFalsy : Json → Bool
  | .null => true
  | .str s => s.isEmpty
  | .int n => n == 0
  | .list xs => xs.isEmpty
  | .dict kvs => kvs.isEmpty

/-- Python `repr` of a JSON value (simplified: strings are wrapped in single
quotes without escaping of special characters, which no value in this
development contains). -/
def pyRepr : Json → String
  | .null => "None"
  | .str s => "\x27" ++ s ++ "\x27"
  | .int n => toString n
  | .list xs => "[" ++ String.intercalate ", " (reprList xs) ++ "]"
  | .dict kvs => "\x7b" ++ String.intercalate ", " (reprKvs kvs) ++ "\x7d"
where
  reprList : List Json → List String
    | [] => []
    | x :: xs => pyRepr x :: reprList xs
  reprKvs : List (String × Json) → List String
    | [] => []
    | (k, v) :: kvs => ("\x27" ++ k ++ "\x27: " ++ pyRepr v) :: reprKvs kvs

/-- Python `str` of a JSON value, as interpolated by an f-string: a string
renders as itself, everything else as its `repr`. -/
def pyStr : Json → String
  | .str s => s
  | j => pyRepr j

/-- Python `key in x` (membership test): keys of a dict, elements of a list,
substring of a string; raises TypeError on `None` and on integers. -/
def pyContains (needle : String) : Json → Except Exc Bool
  | .dict kvs => .ok (dlookup needle kvs).isSome
  | .list xs => .ok (xs.contains (.str needle))
  | .str s => .ok (hasSub needle.toList s.toList)
  | .int _ => .error (.typeError "argument of type int is not iterable")
  | .null => .error (.typeError "argument of type NoneType is not iterable")
where
  matchesAt : List Char → List Char → Bool
    | [], _ => true
    | _ :: _, [] => false
    | a :: as, b :: bs => a == b && matchesAt as bs
  hasSub (needle : List Char) : List Char → Bool
    | [] => matchesAt needle []
    | hay@(_ :: rest) => matchesAt needle hay || hasSub needle rest

/-- Python `x.get(key)` on a value statically typed as a dict: the value at
the key, `None` if absent; raises AttributeError when the value is not
actually a dict. -/
def pyGet (j : Json) (key : String) : Except Exc Json :=
  match j with
  | .dict kvs => .ok ((dlookup key kvs).getD .null)
  | _ => .error (.attributeError ("object has no attribute " ++ "\x27get\x27"))

/-- What the network produced for the single `requests.get` call of a cycle:
either the call raised a `requests.RequestException`, or it returned a
response object with an HTTP status code and a body whose JSON decoding
either fails (with a decode-error message) or yields a `Json` value. -/
inductive NetResult where
  | ioError : NetResult
  | http : Nat → Except String Json → NetResult

/-- `get_api_answer` from homework.py, with the network call replaced by its
observed outcome: a `requests.RequestException` or a non-200 status both
raise `APINotFoundError`; on 200 the decoded JSON body is returned (the
deferred `response.json()` decoding can itself raise). -/
def get_api_answer (net : NetResult) : Except Exc Json :=
  match net with
  | .ioError => .error (.apiNotFound API_REQUEST_FAILURE)
  | .http status body =>
    if status ≠ 200 then .error (.apiNotFound API_REQUEST_FAILURE)
    else
      match body with
      | .error e => .error (.jsonDecodeError e)
      | .ok j => .ok j

/-- `check_response` from homework.py: the response must be a dict, must
contain the key "homeworks" with a list value, and must contain the key
"current_date"; on success the response is returned unchanged. -/
def check_response (response : Json) : Except Exc Json :=
  match response with
  | .dict kvs =>
    match dlookup "homeworks" kvs with
    | none => .error (.homeworksNotFound MISSING_HOMEWORKS_KEY)
    | some homeworks =>
      match homeworks with
      | .list _ =>
        match dlookup "current_date" kvs with
        | none => .error (.currentDateNotFound MISSING_CURRENT_DATE_KEY)
        | some _ => .ok response
      | _ =>
        .error (.typeError
          (INVALID_RESPONSE_TYPE ++ " (" ++ homeworks.typeName ++ ")"))
  | _ =>
    .error (.typeError
      (INVALID_RESPONSE_TYPE ++ " (" ++ response.typeName ++ ")"))

/-- `parse_status` from homework.py: requires the key "homework_name";
reads "status" (defaulting to `None` when absent).  The membership test
`status not in HOMEWORK_VERDICTS` hashes the status value first, so an
unhashable value (a list or a dict) raises TypeError; a hashable value that
is not a catalog key (`None`, a number, or a non-catalog string) raises
`StatusNotFoundError`; a catalog key selects its verdict and the
notification message is rendered. -/
def parse_status (homework : Json) : Except Exc String :=
  match pyContains "homework_name" homework with
  | .error e => .error e
  | .ok false => .error (.homeworksNotFound MISSING_HOMEWORK_NAME)
  | .ok true =>
    match pyGet homework "homework_name" with
    | .error e => .error e
    | .ok homework_name =>
      match pyGet homework "status" with
      | .error e => .error e
      | .ok status =>
        match status with
        | .list _ =>
          .error (.typeError ("unhashable type: " ++ "\x27list\x27"))
        | .dict _ =>
          .error (.typeError ("unhashable type: " ++ "\x27dict\x27"))
        | .null => .error (.statusNotFound UNEXPECTED_STATUS)
        | .int _ => .error (.statusNotFound UNEXPECTED_STATUS)
        | .str s =>
          match HOMEWORK_VERDICTS.lookup s with
          | none => .error (.statusNotFound UNEXPECTED_STATUS)
          | some verdict =>
            .ok ("Изменился статус проверки работы \"" ++ pyStr homework_name
              ++ "\". " ++ verdict)

/-- `send_message` from homework.py, with the Telegram transport replaced by
its observed outcome for this attempt: `none` means `bot.send_message`
succeeded, `some err` means it raised a `telegram.error.TelegramError`
rendering as `err`, which the function re-raises as the repository's own
`TelegramError` (a `NotForSend` subclass). -/
def send_message (outcome : Option String) (message : String) :
    Except Exc Unit :=
  match outcome with
  | none => .ok ()
  | some err =>
    .error (.telegramError ("Ошибка при отправке сообщения: " ++ err))

/-- The mutable state of `main`: the poll cursor `timestamp` (typed `int` in
the source but re-assigned from `response.get("current_date")`, so any JSON
value can end up here) and the last failure text sent to the chat. -/
structure LoopState where
  timestamp : Json
  last_status_message : String

/-- The external world's behaviour during one cycle: what the single
`requests.get` call produced, and the outcome of the (at most one) Telegram
send attempt of the cycle. -/
structure CycleEnv where
  net : NetResult
  sendResult : Option String

/-- `homeworks[0]` in `main`: indexing the first element.  In the loop this
is only evaluated after `check_response` guaranteed a list and the emptiness
check guaranteed it nonempty, so only the first branch is reachable; the
other branches raise as Python indexing would. -/
def pyIndexZero : Json → Except Exc Json
  | .list (h :: _) => .ok h
  | .list [] => .error (.typeError "list index out of range")
  | _ => .error (.typeError "object is not subscriptable")

/-- The `try` block of one iteration of the polling loop in `main`: fetch,
validate, extract `homeworks`, raise `EmptyHomeworksError` when it is falsy,
otherwise format the first entry and send it, then read the new cursor value
from the response.  Returns the new cursor and the list of messages
successfully delivered to the chat, or the first exception raised. -/
def cycleBody (env : CycleEnv) : Except Exc (Json × List String) :=
  match get_api_answer env.net with
  | .error e => .error e
  | .ok response =>
    match check_response response with
    | .error e => .error e
    | .ok checked =>
      match pyGet checked "homeworks" with
      | .error e => .error e
      | .ok homeworks =>
        if pyFalsy homeworks then
          .error (.emptyHomeworks "Отсутствуют новые статусы")
        else
          match pyIndexZero homeworks with
          | .error e => .error e
          | .ok first =>
            match parse_status first with
            | .error e => .error e
            | .ok msg =>
              match send_message env.sendResult msg with
              | .error e => .error e
              | .ok _ =>
                match pyGet response "current_date" with
                | .error e => .error e
                | .ok newTs => .ok (newTs, [msg])

/-- The observable outcome of one iteration of the polling loop: the state
after the iteration, the messages successfully delivered to the chat, what
`main` itself logged at error level in its handlers, and — when an exception
escaped the iteration — that exception (the `finally` sleep still runs, but
the `while` loop terminates and `main` raises). -/
structure CycleResult where
  state : LoopState
  sent : List String
  handlerLogged : List String
  crashed : Option Exc

/-- One full iteration of `while True` in `main`: the `try` block
(`cycleBody`), then the `except NotForSend` handler (log only), then the
`except Exception` handler (render the failure message; if it differs from
`last_status_message`, log it, send it, and on successful send record it —
a send failure here escapes the handler uncaught). -/
def runCycle (env : CycleEnv) (st : LoopState) : CycleResult :=
  match cycleBody env with
  | .ok (newTs, sent) =>
    { state := { timestamp := newTs,
                 last_status_message := st.last_status_message },
      sent := sent, handlerLogged := [], crashed := none }
  | .error e =>
    if e.isNotForSend then
      { state := st, sent := [], handlerLogged := [e.text], crashed := none }
    else
      let message := "Сбой в работе программы: " ++ e.text
      if message = st.last_status_message then
        { state := st, sent := [], handlerLogged := [], crashed := none }
      else
        match send_message env.sendResult message with
        | .ok _ =>
          { state := { timestamp := st.timestamp,
                       last_status_message := message },
            sent := [message], handlerLogged := [message], crashed := none }
        | .error e2 =>
          { state := st, sent := [], handlerLogged := [message],
            crashed := some e2 }

/-! ## Theorems about the Status Formatter (`parse_status`) -/

/-- C6: for every Homework record containing a string `homework_name` and a
status that is in the catalog, `parse_status` returns exactly the message
"Изменился статус проверки работы", followed by the quoted name, a period,
and the catalog's verdict text. -/
theorem parse_status_formats (kvs : List (String × Json))
    (name status verdict : String)
    (hname : dlookup "homework_name" kvs = some (.str name))
    (hstatus : dlookup "status" kvs = some (.str status))
    (hv : HOMEWORK_VERDICTS.lookup status = some verdict) :
    parse_status (.dict kvs) =
      .ok ("Изменился статус проверки работы \"" ++ name ++ "\". "
        ++ verdict) := by
  simp [parse_status, pyContains, pyGet, hname, hstatus, hv, pyStr]

/-- C6 witness: the spec's end-to-end scenario B record, with name "hw1" and
status "reviewing". -/
theorem parse_status_formats_witness :
    parse_status (.dict [("homework_name", .str "hw1"),
        ("status", .str "reviewing")]) =
      .ok "Изменился статус проверки работы \"hw1\". Работа взята на проверку ревьюером." :=
  parse_status_formats _ "hw1" "reviewing" _ rfl rfl rfl

/-- C7 counterexample: a record whose status is a list (not one of the
three catalog keys) makes `parse_status` raise TypeError from the
unhashable membership test, not the unrecognized-status error, refuting the
claim as stated for that input. -/
theorem parse_status_unhashable_counterexample :
    parse_status (.dict [("homework_name", .str "hw1"),
        ("status", .list [])]) =
      .error (.typeError ("unhashable type: " ++ "\x27list\x27")) ∧
    parse_status (.dict [("homework_name", .str "hw1"),
        ("status", .list [])]) ≠
      .error (.statusNotFound UNEXPECTED_STATUS) := by
  refine ⟨rfl, fun h => ?_⟩
  have h2 : Exc.typeError ("unhashable type: " ++ "\x27list\x27") =
      Exc.statusNotFound UNEXPECTED_STATUS := Except.error.inj h
  exact absurd h2 (by decide)

/-- C7 amended: for every Homework record with `homework_name` present
whose `status` is absent or holds a hashable value that is not one of the
three catalog keys — `None`, a number, or a non-catalog string —
`parse_status` fails with `StatusNotFoundError` and returns no message; an
unhashable status value (a list or a dict) instead raises TypeError from
the membership test. -/
theorem parse_status_unknown_status (kvs : List (String × Json)) (nm : Json)
    (hname : dlookup "homework_name" kvs = some nm)
    (hstatus : ∀ s, dlookup "status" kvs = some (.str s) →
      s ≠ "approved" ∧ s ≠ "reviewing" ∧ s ≠ "rejected")
    (hhash : ∀ v, dlookup "status" kvs = some v →
      (∀ xs, v ≠ Json.list xs) ∧ ∀ kvs2, v ≠ Json.dict kvs2) :
    parse_status (.dict kvs) = .error (.statusNotFound UNEXPECTED_STATUS) := by
  simp only [parse_status, pyContains, pyGet, hname, Option.isSome_some,
    Option.getD_some]
  cases hs : dlookup "status" kvs with
  | none => simp
  | some v =>
    cases v with
    | str s =>
      obtain ⟨h1, h2, h3⟩ := hstatus s hs
      have e1 : (s == "approved") = false := beq_eq_false_iff_ne.mpr h1
      have e2 : (s == "reviewing") = false := beq_eq_false_iff_ne.mpr h2
      have e3 : (s == "rejected") = false := beq_eq_false_iff_ne.mpr h3
      simp [HOMEWORK_VERDICTS, List.lookup, e1, e2, e3]
    | null => simp
    | int n => simp
    | list xs => exact absurd rfl ((hhash _ hs).1 xs)
    | dict kvs2 => exact absurd rfl ((hhash _ hs).2 kvs2)

/-- C7 amended witness: a record whose status "unknown" is outside the
catalog, and a record with no status key at all. -/
theorem parse_status_unknown_status_witness :
    parse_status (.dict [("homework_name", .str "hw1"),
        ("status", .str "unknown")]) =
      .error (.statusNotFound UNEXPECTED_STATUS) ∧
    parse_status (.dict [("homework_name", .str "hw1")]) =
      .error (.statusNotFound UNEXPECTED_STATUS) :=
  ⟨parse_status_unknown_status _ (.str "hw1") rfl
      (by intro s hs; cases hs; exact ⟨by decide, by decide, by decide⟩)
      (by intro v hv; cases hv; exact ⟨fun xs h => Json.noConfusion h,
        fun kvs2 h => Json.noConfusion h⟩),
   parse_status_unknown_status _ (.str "hw1") rfl
      (by intro s hs; cases hs) (by intro v hv; cases hv)⟩

/-- C9: the Status Formatter is deterministic — two calls of `parse_status`
on the same Homework record that both succeed yield the same string (the
embedding of `parse_status` is a pure function of the record, so a second
call is the same application). -/
theorem parse_status_deterministic (hw : Json) (m1 m2 : String)
    (h1 : parse_status hw = .ok m1) (h2 : parse_status hw = .ok m2) :
    m1 = m2 := by
  rw [h1] at h2
  exact Except.ok.inj h2

/-- C9 witness: two evaluations on the scenario-B record agree. -/
theorem parse_status_deterministic_witness :
    ("Изменился статус проверки работы \"hw1\". Работа взята на проверку ревьюером."
      : String) =
    "Изменился статус проверки работы \"hw1\". Работа взята на проверку ревьюером." :=
  parse_status_deterministic
    (.dict [("homework_name", .str "hw1"), ("status", .str "reviewing")])
    _ _ rfl rfl

/-- C10: the missing-field error of the Status Formatter and the
missing-key error of the Response Validator are the same exception class:
a record lacking `homework_name` makes `parse_status` raise
`HomeworksNotFoundError`, the identical class `check_response` raises for a
response lacking `homeworks`, so the two error kinds are indistinguishable
by exception type. -/
theorem missing_field_same_class (kvs kvs2 : List (String × Json))
    (h1 : dlookup "homework_name" kvs = none)
    (h2 : dlookup "homeworks" kvs2 = none) :
    parse_status (.dict kvs) =
      .error (.homeworksNotFound MISSING_HOMEWORK_NAME) ∧
    check_response (.dict kvs2) =
      .error (.homeworksNotFound MISSING_HOMEWORKS_KEY) ∧
    (Exc.homeworksNotFound MISSING_HOMEWORK_NAME).className =
      (Exc.homeworksNotFound MISSING_HOMEWORKS_KEY).className := by
  refine ⟨?_, ?_, rfl⟩
  · simp [parse_status, pyContains, h1]
  · simp [check_response, h2]

/-- C10 witness: the empty record and the empty response. -/
theorem missing_field_same_class_witness :
    parse_status (.dict []) =
      .error (.homeworksNotFound MISSING_HOMEWORK_NAME) ∧
    check_response (.dict []) =
      .error (.homeworksNotFound MISSING_HOMEWORKS_KEY) ∧
    (Exc.homeworksNotFound MISSING_HOMEWORK_NAME).className =
      (Exc.homeworksNotFound MISSING_HOMEWORKS_KEY).className :=
  missing_field_same_class [] [] rfl rfl

/-! ## Theorems about the API Client (`get_api_answer`) -/

/-- C8: `get_api_answer` fails with the single API-unreachable error kind
(`APINotFoundError`, always with the same message) exactly when the network
call raises or the HTTP status is not 200; on HTTP 200 with a decodable
body it returns the decoded JSON. -/
theorem get_api_answer_spec (net : NetResult) :
    (get_api_answer net = .error (.apiNotFound API_REQUEST_FAILURE) ↔
      (net = .ioError ∨ ∃ s b, net = .http s b ∧ s ≠ 200)) ∧
    (∀ j, net = .http 200 (.ok j) → get_api_answer net = .ok j) := by
  constructor
  · cases net with
    | ioError => simp [get_api_answer]
    | http s b =>
      by_cases hs : s = 200
      · subst hs
        cases b <;> simp [get_api_answer]
      · simp only [get_api_answer, if_pos hs]
        constructor
        · intro _; exact Or.inr ⟨s, b, rfl, hs⟩
        · intro _; trivial
  · rintro j rfl
    simp [get_api_answer]

/-- C8 witness: status 404 yields the API-unreachable error; status 200
with body `null` yields the body. -/
theorem get_api_answer_spec_witness :
    get_api_answer (.http 404 (.ok .null)) =
      .error (.apiNotFound API_REQUEST_FAILURE) ∧
    get_api_answer (.http 200 (.ok .null)) = .ok .null :=
  ⟨(get_api_answer_spec _).1.mpr (Or.inr ⟨404, _, rfl, by decide⟩),
   (get_api_answer_spec _).2 _ rfl⟩

/-! ## Theorems about the Response Validator (`check_response`) -/

/-- Pass-through: whenever `check_response` succeeds, it returns its input
unchanged. -/
theorem check_response_ok_eq (response r : Json)
    (h : check_response response = .ok r) : r = response := by
  unfold check_response at h
  repeat' split at h
  all_goals first
    | exact Except.noConfusion h
    | exact (Except.ok.inj h).symm

/-- A response whose `current_date` is present but holds a string, not an
integer. -/
def responseStrDate : Json :=
  .dict [("homeworks", .list []), ("current_date", .str "not-an-int")]

/-- C2 counterexample: `check_response` accepts a response whose
`current_date` key is present but not an integer — it returns the response
unchanged instead of raising, refuting the claim that such a response is
rejected. -/
theorem check_response_counterexample :
    check_response responseStrDate = Except.ok responseStrDate ∧
    ¬ ∃ e, check_response responseStrDate = Except.error e := by
  refine ⟨rfl, ?_⟩
  rintro ⟨e, he⟩
  rw [(rfl : check_response responseStrDate = Except.ok responseStrDate)]
    at he
  exact Except.noConfusion he

/-- C2 amended: `check_response` raises exactly when the response is not a
dict, or lacks the `homeworks` key, or its `homeworks` value is not a list,
or lacks the `current_date` key; the type of the `current_date` value is
never checked, and on success the response is returned unchanged. -/
theorem check_response_spec (response : Json) :
    ((∃ e, check_response response = Except.error e) ↔
      ¬ ∃ kvs, response = .dict kvs ∧
        (∃ xs, dlookup "homeworks" kvs = some (.list xs)) ∧
        (dlookup "current_date" kvs).isSome) ∧
    (∀ r, check_response response = Except.ok r → r = response) := by
  refine ⟨?_, fun r hr => check_response_ok_eq response r hr⟩
  cases response with
  | null => simp [check_response]
  | str s => simp [check_response]
  | int n => simp [check_response]
  | list xs => simp [check_response]
  | dict kvs =>
    cases hh : dlookup "homeworks" kvs with
    | none => simp [check_response, hh]
    | some hw =>
      cases hw with
      | null => simp [check_response, hh]
      | str s => simp [check_response, hh]
      | int n => simp [check_response, hh]
      | dict kvs2 => simp [check_response, hh]
      | list xs =>
        cases hc : dlookup "current_date" kvs with
        | none => simp [check_response, hh, hc]
        | some v => simp [check_response, hh, hc]

/-- C2 amended witness: a well-shaped response is accepted, and a response
without `current_date` is rejected. -/
theorem check_response_spec_witness :
    (¬ ∃ e, check_response (.dict [("homeworks", .list []),
        ("current_date", .int 1000)]) = Except.error e) ∧
    (∃ e, check_response (.dict [("homeworks", .list [])]) =
      Except.error e) :=
  ⟨fun h => ((check_response_spec _).1.mp h)
      ⟨_, rfl, ⟨[], rfl⟩, by decide⟩,
   (check_response_spec _).1.mpr (by
      rintro ⟨kvs, hk, ⟨xs, hxs⟩, hc⟩
      cases hk
      exact absurd hc (by decide))⟩

/-! ## Theorems about the Poll Loop (`main`) -/

/-- Inversion of a successful cycle: the response came back from the API
client, passed validation unchanged, and the new cursor value is the
response's `current_date` value. -/
theorem cycleBody_ok_inv (env : CycleEnv) (ts : Json) (sent : List String)
    (hout : cycleBody env = .ok (ts, sent)) :
    ∃ response, get_api_answer env.net = .ok response ∧
      check_response response = .ok response ∧
      pyGet response "current_date" = .ok ts := by
  unfold cycleBody at hout
  cases hnet : get_api_answer env.net with
  | error e => simp [hnet] at hout
  | ok response =>
    simp only [hnet] at hout
    refine ⟨response, rfl, ?_⟩
    cases hcheck : check_response response with
    | error e => simp [hcheck] at hout
    | ok checked =>
      have hce : checked = response :=
        check_response_ok_eq response checked hcheck
      subst hce
      simp only [hcheck] at hout
      refine ⟨rfl, ?_⟩
      cases hget : pyGet checked "homeworks" with
      | error e => simp [hget] at hout
      | ok homeworks =>
        simp only [hget] at hout
        by_cases hf : pyFalsy homeworks = true
        · simp [hf] at hout
        · rw [if_neg hf] at hout
          cases hidx : pyIndexZero homeworks with
          | error e => simp [hidx] at hout
          | ok first =>
            simp only [hidx] at hout
            cases hps : parse_status first with
            | error e => simp [hps] at hout
            | ok msg =>
              simp only [hps] at hout
              cases hsm : send_message env.sendResult msg with
              | error e => simp [hsm] at hout
              | ok u =>
                simp only [hsm] at hout
                cases hcd : pyGet checked "current_date" with
                | error e => simp [hcd] at hout
                | ok newTs =>
                  simp only [hcd, Except.ok.injEq, Prod.mk.injEq] at hout
                  obtain ⟨rfl, rfl⟩ := hout
                  rfl

/-- C4: the poll cursor advances to the response's `current_date` exactly on
fully successful cycles; on every cycle whose body raises at any step, the
cursor is left unchanged. -/
theorem cursor_advance_spec (env : CycleEnv) (st : LoopState) :
    (∀ e, cycleBody env = .error e →
      (runCycle env st).state.timestamp = st.timestamp) ∧
    (∀ ts sent, cycleBody env = .ok (ts, sent) →
      (runCycle env st).state.timestamp = ts ∧
      ∃ response, get_api_answer env.net = .ok response ∧
        pyGet response "current_date" = .ok ts) := by
  constructor
  · intro e he
    simp only [runCycle, he]
    repeat' split
    all_goals rfl
  · intro ts sent hout
    refine ⟨?_, ?_⟩
    · simp only [runCycle, hout]
    · obtain ⟨r, h1, _, h3⟩ := cycleBody_ok_inv env ts sent hout
      exact ⟨r, h1, h3⟩

/-- The scenario-B response: one homework, `current_date` 1000. -/
def respScenarioB : Json :=
  .dict [("homeworks", .list [.dict [("homework_name", .str "hw1"),
            ("status", .str "reviewing")]]),
         ("current_date", .int 1000)]

/-- The initial loop state used in concrete witnesses: cursor 0, no failure
text sent yet. -/
def stInit : LoopState := ⟨.int 0, ""⟩

/-- C4 witness: a failing cycle (network error) leaves the cursor at 0; the
scenario-B cycle advances it to the response's `current_date`, 1000. -/
theorem cursor_advance_spec_witness :
    (runCycle ⟨.ioError, none⟩ stInit).state.timestamp = stInit.timestamp ∧
    (runCycle ⟨.http 200 (.ok respScenarioB), none⟩ stInit).state.timestamp =
      .int 1000 :=
  ⟨(cursor_advance_spec ⟨.ioError, none⟩ stInit).1
      (.apiNotFound API_REQUEST_FAILURE) rfl,
   ((cursor_advance_spec ⟨.http 200 (.ok respScenarioB), none⟩ stInit).2
      (.int 1000) _ rfl).1⟩

/-- The scenario-C response: an empty `homeworks` list. -/
def respEmpty : Json :=
  .dict [("homeworks", .list []), ("current_date", .int 1000)]

/-- C5: when the validated response's `homeworks` list is empty, the cycle
raises the dedicated `EmptyHomeworksError`, `main` logs its text in the
`NotForSend` handler, and no message of any kind is sent to the chat for
that cycle; the loop continues. -/
theorem empty_homeworks_policy (env : CycleEnv) (st : LoopState)
    (response : Json)
    (hnet : get_api_answer env.net = .ok response)
    (hcheck : check_response response = .ok response)
    (hempty : pyGet response "homeworks" = .ok (.list [])) :
    cycleBody env = .error (.emptyHomeworks "Отсутствуют новые статусы") ∧
    (runCycle env st).sent = [] ∧
    (runCycle env st).handlerLogged = ["Отсутствуют новые статусы"] ∧
    (runCycle env st).crashed = none := by
  have hbody : cycleBody env =
      .error (.emptyHomeworks "Отсутствуют новые статусы") := by
    unfold cycleBody
    simp only [hnet, hcheck, hempty]
    simp [pyFalsy]
  refine ⟨hbody, ?_, ?_, ?_⟩ <;>
    simp [runCycle, hbody, Exc.isNotForSend, Exc.text]

/-- C5 witness: the spec's end-to-end scenario C. -/
theorem empty_homeworks_policy_witness :
    cycleBody ⟨.http 200 (.ok respEmpty), none⟩ =
      .error (.emptyHomeworks "Отсутствуют новые статусы") ∧
    (runCycle ⟨.http 200 (.ok respEmpty), none⟩ stInit).sent = [] ∧
    (runCycle ⟨.http 200 (.ok respEmpty), none⟩ stInit).handlerLogged =
      ["Отсутствуют новые статусы"] ∧
    (runCycle ⟨.http 200 (.ok respEmpty), none⟩ stInit).crashed = none :=
  empty_homeworks_policy _ stInit respEmpty rfl rfl rfl

/-- A failing cycle whose rendered failure text equals the last notified
message is fully suppressed: nothing is sent, nothing is logged by the
handler, and the state is unchanged. -/
theorem runCycle_error_suppressed (env : CycleEnv) (st : LoopState) (e : Exc)
    (hb : cycleBody env = .error e) (hn : e.isNotForSend = false)
    (hl : ("Сбой в работе программы: " ++ e.text) = st.last_status_message) :
    runCycle env st =
      { state := st, sent := [], handlerLogged := [], crashed := none } := by
  simp only [runCycle, hb, hn]
  simp [hl]

/-- A failing cycle whose rendered failure text differs from the last
notified message, with a working Telegram transport, logs the text, sends
it, and records it as the new last notified message. -/
theorem runCycle_error_notified (env : CycleEnv) (st : LoopState) (e : Exc)
    (hb : cycleBody env = .error e) (hn : e.isNotForSend = false)
    (hs : env.sendResult = none)
    (hl : ("Сбой в работе программы: " ++ e.text) ≠ st.last_status_message) :
    runCycle env st =
      { state := { timestamp := st.timestamp,
                   last_status_message := "Сбой в работе программы: "
                     ++ e.text },
        sent := ["Сбой в работе программы: " ++ e.text],
        handlerLogged := ["Сбой в работе программы: " ++ e.text],
        crashed := none } := by
  simp only [runCycle, hb, hn, hs]
  simp [hl, send_message]

/-- The failing environment of the C3 counterexample: the network call
raises and the Telegram transport works. -/
def envFail : CycleEnv := ⟨.ioError, none⟩

/-- A state in which the API failure text has already been notified before
cycle N. -/
def stAlreadyNotified : LoopState :=
  ⟨.int 0, "Сбой в работе программы: " ++ API_REQUEST_FAILURE⟩

/-- C3 counterexample: when the failure text was already the last notified
message before cycle N, two consecutive identical failing cycles (with a
working transport) send zero notifications between them, not exactly one,
refuting the claim as stated. -/
theorem consecutive_failure_counterexample :
    (runCycle envFail stAlreadyNotified).sent.length +
      (runCycle envFail
        (runCycle envFail stAlreadyNotified).state).sent.length ≠ 1 := by
  decide

/-- C3 amended: across two consecutive cycles failing with the same rendered
error text (cycle N with a working transport), the second cycle never sends
— the operator never receives the identical failure text twice in a row —
so at most one notification is sent across the pair, and exactly one
precisely when the rendered text differs from the last previously notified
failure message. -/
theorem consecutive_failure_suppression (env1 env2 : CycleEnv)
    (st : LoopState) (e1 e2 : Exc)
    (h1 : cycleBody env1 = .error e1) (h2 : cycleBody env2 = .error e2)
    (hn1 : e1.isNotForSend = false) (hn2 : e2.isNotForSend = false)
    (htext : e1.text = e2.text)
    (hs1 : env1.sendResult = none) :
    (runCycle env2 (runCycle env1 st).state).sent = [] ∧
    (runCycle env1 st).sent.length +
      (runCycle env2 (runCycle env1 st).state).sent.length ≤ 1 ∧
    (("Сбой в работе программы: " ++ e1.text) ≠ st.last_status_message →
      (runCycle env1 st).sent.length +
        (runCycle env2 (runCycle env1 st).state).sent.length = 1) := by
  by_cases hl :
      ("Сбой в работе программы: " ++ e1.text) = st.last_status_message
  · have r1eq := runCycle_error_suppressed env1 st e1 h1 hn1 hl
    have hl2 : ("Сбой в работе программы: " ++ e2.text) =
        st.last_status_message := by rw [← htext]; exact hl
    rw [r1eq]
    have r2eq := runCycle_error_suppressed env2 st e2 h2 hn2 hl2
    rw [r2eq]
    exact ⟨rfl, by simp, fun hne => absurd hl hne⟩
  · have r1eq := runCycle_error_notified env1 st e1 h1 hn1 hs1 hl
    rw [r1eq]
    have hl2 : ("Сбой в работе программы: " ++ e2.text) =
        "Сбой в работе программы: " ++ e1.text := by rw [htext]
    have r2eq := runCycle_error_suppressed env2
      ⟨st.timestamp, "Сбой в работе программы: " ++ e1.text⟩ e2 h2 hn2 hl2
    rw [r2eq]
    exact ⟨rfl, by simp, fun _ => by simp⟩

/-- C3 amended witness: starting from a fresh state, two consecutive
network-failure cycles with the same text send exactly one notification. -/
theorem consecutive_failure_suppression_witness :
    (runCycle envFail stInit).sent.length +
      (runCycle envFail (runCycle envFail stInit).state).sent.length = 1 :=
  (consecutive_failure_suppression envFail envFail stInit
    (.apiNotFound API_REQUEST_FAILURE) (.apiNotFound API_REQUEST_FAILURE)
    rfl rfl rfl rfl rfl rfl).2.2 (by decide)

/-- The C1 environment: the cycle fails with a network error and the
notification send itself fails. -/
def envSendFails : CycleEnv := ⟨.ioError, some "chat unreachable"⟩

/-- C1 counterexample: when the failure-notification send raises, the
exception escapes the iteration (`crashed` is not `none`): the loop does
not proceed to the next iteration, refuting the claim as stated. -/
theorem failed_notification_counterexample :
    ¬ ((runCycle envSendFails stInit).crashed = none) := by decide

/-- C1 amended: in a cycle whose body fails with a to-be-notified error and
whose failure-notification send itself fails, `main` has already logged the
failure message, nothing is delivered to the chat, the state (cursor and
last notified message) is unchanged, and the re-raised `TelegramError`
escapes the handler uncaught — the `finally` sleep still runs, but the loop
terminates instead of proceeding to the next iteration, and the secondary
failure is not logged by the loop. -/
theorem failed_notification_crashes (env : CycleEnv) (st : LoopState)
    (e : Exc) (err : String)
    (hb : cycleBody env = .error e) (hn : e.isNotForSend = false)
    (hnew : ("Сбой в работе программы: " ++ e.text) ≠ st.last_status_message)
    (hs : env.sendResult = some err) :
    (runCycle env st).handlerLogged =
      ["Сбой в работе программы: " ++ e.text] ∧
    (runCycle env st).sent = [] ∧
    (runCycle env st).state = st ∧
    (runCycle env st).crashed =
      some (.telegramError ("Ошибка при отправке сообщения: " ++ err)) := by
  simp only [runCycle, hb, hn, hs]
  simp [hnew, send_message]

/-- C1 amended witness: the concrete crashing cycle. -/
theorem failed_notification_crashes_witness :
    (runCycle envSendFails stInit).handlerLogged =
      ["Сбой в работе программы: " ++ API_REQUEST_FAILURE] ∧
    (runCycle envSendFails stInit).sent = [] ∧
    (runCycle envSendFails stInit).state = stInit ∧
    (runCycle envSendFails stInit).crashed =
      some (.telegramError ("Ошибка при отправке сообщения: "
        ++ "chat unreachable")) :=
  failed_notification_crashes envSendFails stInit
    (.apiNotFound API_REQUEST_FAILURE) "chat unreachable"
    rfl rfl (by decide) rfl

end HomeworkBot
